import Mathlib

/-!
Shallow embedding of the cart/checkout core of a small storefront
(`src/app.py`): data model (Produto, Usuario, Carrinho rows), the cart
routes `adicionar_carrinho`, `remover_item`, `finalizar_compra`, and the
notification helper `enviar_whatsapp_admin`.

Modelling conventions:
* The database is a record of three row lists; SQLAlchemy queries become
  `List.find?` / `List.filter` over them.
* Prices (`db.Float`, an IEEE-754 double, in the source) are embedded as
  `ℚ`.  This erases rounding: properties that depend on the numeric value
  of a float sum (such as order-insensitivity of the total) are NOT settled
  by this embedding, and no theorem below relies on the total's numeric
  value — the operations only depend on whether the total computation
  completes.  Quantities and stock (Python `int`) are `Int`; ids `Nat`.
* A Python exception escaping a route handler is a distinct result
  constructor (`unhandledError`); exceptions caught inside a handler
  surface as the handler's own error results.
* Failure of `db.session.commit()` is injected through an explicit
  `commitRaises : Bool` parameter; failure of the Twilio transport call
  through `transportRaises : Bool`.  On a failed commit the persisted
  state is unchanged (the transaction never committed), which is what the
  embedding's returned state represents.
* Message string contents (the WhatsApp text) are not modelled; only the
  control flow of `enviar_whatsapp_admin` (formatting accesses
  `item.produto` outside the `try`, the transport call inside it) is.
-/

namespace Frutt

/-- A `Produto` row: id, name, price, stock (`descricao`/`imagem` omitted:
no claim mentions them and no modelled operation reads them).  `preco` is a
`db.Float` (IEEE-754 double) in the source, embedded here as `ℚ`; see the
module docstring for what this abstraction does and does not support. -/
structure Produto where
  id : Nat
  nome : String
  preco : ℚ
  estoque : Int
  deriving Repr, DecidableEq

/-- A `Usuario` row (fields the modelled routes read). -/
structure Usuario where
  id : Nat
  nome : String
  email : String
  telefone : Option String
  deriving Repr, DecidableEq

/-- A `Carrinho` (cart line) row: id, owning user, product, quantity. -/
structure Carrinho where
  id : Nat
  usuario_id : Nat
  produto_id : Nat
  quantidade : Int
  deriving Repr, DecidableEq

/-- The relational store: the three tables. -/
structure DB where
  produtos : List Produto
  usuarios : List Usuario
  carrinhos : List Carrinho
  deriving Repr, DecidableEq

/-- `Produto.query.get(pid)`: first product row with the given primary key. -/
def lookupProduto (db : DB) (pid : Nat) : Option Produto :=
  db.produtos.find? (fun p => p.id == pid)

/-- `Carrinho.query.filter_by(usuario_id=uid, produto_id=pid).first()`. -/
def findLine (db : DB) (uid pid : Nat) : Option Carrinho :=
  db.carrinhos.find? (fun c => c.usuario_id == uid && c.produto_id == pid)

/-- `db.session.query(db.func.max(Carrinho.id)).scalar()`: SQL `MAX` over the
cart-line table, `NULL` (here `none`) when the table is empty. -/
def maxCartId (db : DB) : Option Nat :=
  db.carrinhos.foldl
    (fun acc c =>
      match acc with
      | none => some c.id
      | some m => some (max m c.id)) none

/-- Autoincrement primary key for a freshly inserted cart line. -/
def nextCartId (db : DB) : Nat :=
  match maxCartId db with
  | none => 1
  | some m => m + 1

/-- Python `f"{n:04d}"`: decimal digits of `n`, zero-padded on the left to a
minimum width of 4. -/
def pad4 (n : Nat) : String :=
  let s := toString n
  if s.length < 4 then String.mk (List.replicate (4 - s.length) '0') ++ s else s

/-- `sum(item.produto.preco * item.quantidade for item in itens)` (used at
lines 210 and 231 of `src/app.py`).  Accessing `item.produto` on a line whose
product row is missing raises (`None` attribute access), hence `Option`.
The source's sum is a left-fold of non-associative IEEE-double additions;
modelling it over `ℚ` keeps the control flow (definedness) faithful but not
the rounding, so theorems here use `computeTotal` only through whether it
returns `some`, never through the value it returns. -/
def computeTotal (db : DB) (itens : List Carrinho) : Option ℚ :=
  match itens with
  | [] => some 0
  | item :: rest =>
    match lookupProduto db item.produto_id with
    | none => none
    | some p =>
      match computeTotal db rest with
      | none => none
      | some t => some (p.preco * (item.quantidade : ℚ) + t)

/-- The price of the product a line references, `0` when the product row is
missing (used only to state sums; `computeTotal` itself fails in that case). -/
def precoDe (db : DB) (item : Carrinho) : ℚ :=
  match lookupProduto db item.produto_id with
  | none => 0
  | some p => p.preco

/-- Outcome of the `adicionar_carrinho` route.  `notFound` is the
`get_or_404` branch (the raised 404 is then caught by the route's generic
`except Exception`, which rolls back and flashes a generic error — the state
is unchanged either way); `insufficientStock` covers both stock-check flash
sites; `dbError` is a commit failure caught by the same handler
(rollback + generic flash). -/
inductive AddResult
  | loginRedirect
  | notFound
  | invalidQuantity
  | insufficientStock
  | success
  | dbError
  deriving Repr, DecidableEq

/-- `adicionar_carrinho` (`src/app.py` lines 143–202).  `sessionUser` is
`session.get('usuario_id')`; `quantidade` the parsed form quantity. -/
def adicionar_carrinho (db : DB) (sessionUser : Option Nat) (produto_id : Nat)
    (quantidade : Int) (commitRaises : Bool) : AddResult × DB :=
  match sessionUser with
  | none => (.loginRedirect, db)
  | some uid =>
    match lookupProduto db produto_id with
    | none => (.notFound, db)
    | some produto =>
      if quantidade ≤ 0 then (.invalidQuantity, db)
      else if produto.estoque < quantidade then (.insufficientStock, db)
      else
        match findLine db uid produto_id with
        | some item_carrinho =>
          let nova_quantidade := item_carrinho.quantidade + quantidade
          if produto.estoque < nova_quantidade then (.insufficientStock, db)
          else if commitRaises then (.dbError, db)
          else
            (.success,
              { db with
                  carrinhos := db.carrinhos.map (fun c =>
                    if c.id = item_carrinho.id then
                      { c with quantidade := nova_quantidade }
                    else c) })
        | none =>
          if commitRaises then (.dbError, db)
          else
            (.success,
              { db with
                  carrinhos := db.carrinhos ++
                    [{ id := nextCartId db, usuario_id := uid,
                       produto_id := produto_id, quantidade := quantidade }] })

/-- Outcome of the `remover_item` route.  There is no `try`/`except` in this
route, so a commit failure escapes as an unhandled exception. -/
inductive RemoveResult
  | notFound
  | success
  | unhandledError
  deriving Repr, DecidableEq

/-- `remover_item` (`src/app.py` lines 213–218): `get_or_404` then
unconditional delete and commit; no session/ownership check, no handler. -/
def remover_item (db : DB) (item_id : Nat) (commitRaises : Bool) :
    RemoveResult × DB :=
  match db.carrinhos.find? (fun c => c.id == item_id) with
  | none => (.notFound, db)
  | some _ =>
    if commitRaises then (.unhandledError, db)
    else (.success, { db with carrinhos := db.carrinhos.filter (fun c => c.id != item_id) })

/-- `enviar_whatsapp_admin` (`src/app.py` lines 40–85).  The item formatting
(`item.produto.nome`, … ) happens before the `try`, so a line with a missing
product row raises out of the function (`none`).  The transport call
`client.messages.create` is inside `try … except Exception`: it returns
`True` on success and `False` on any transport failure, never raising. -/
def enviar_whatsapp_admin (db : DB) (usuario : Usuario) (itens : List Carrinho)
    (total : ℚ) (pedido_id : String) (transportRaises : Bool) : Option Bool :=
  if itens.all (fun i => (lookupProduto db i.produto_id).isSome) then
    some (if transportRaises then false else true)
  else none

/-- Outcome of the `finalizar_compra` route.  `success` carries the generated
order id and the boolean returned by the notification helper. -/
inductive CheckoutResult
  | loginRedirect
  | unhandledError
  | success (pedido_id : String) (notified : Bool)
  deriving Repr, DecidableEq

/-- Result record of `finalizar_compra`: route outcome, resulting store, and
whether the Twilio transport call was reached. -/
structure CheckoutOut where
  result : CheckoutResult
  db : DB
  transportAttempted : Bool
  deriving Repr, DecidableEq

/-- `finalizar_compra` (`src/app.py` lines 221–247).  Reads the session user
(`Usuario.query.get`; `None` leads to an `AttributeError` on `usuario.id`),
computes the total, builds `pedido_id` from `MAX(Carrinho.id) + 1`
(a `TypeError` when the table is empty, since `None + 1` raises), calls the
notification helper ignoring its boolean, bulk-deletes the user's lines and
commits.  No `try`/`except`: any of these failures escapes unhandled. -/
def finalizar_compra (db : DB) (sessionUser : Option Nat)
    (transportRaises : Bool) (commitRaises : Bool) : CheckoutOut :=
  match sessionUser with
  | none => ⟨.loginRedirect, db, false⟩
  | some sid =>
    match db.usuarios.find? (fun u => u.id == sid) with
    | none => ⟨.unhandledError, db, false⟩
    | some usuario =>
      let itens := db.carrinhos.filter (fun c => c.usuario_id == usuario.id)
      match computeTotal db itens with
      | none => ⟨.unhandledError, db, false⟩
      | some total =>
        match maxCartId db with
        | none => ⟨.unhandledError, db, false⟩
        | some m =>
          let pedido_id := "PED" ++ pad4 (m + 1)
          match enviar_whatsapp_admin db usuario itens total pedido_id transportRaises with
          | none => ⟨.unhandledError, db, false⟩
          | some notified =>
            if commitRaises then ⟨.unhandledError, db, true⟩
            else
              ⟨.success pedido_id notified,
               { db with carrinhos := db.carrinhos.filter (fun c => c.usuario_id != sid) },
               true⟩

/-- Invariant: at most one cart line per (user, product) pair. -/
def UniqueUserProduct (db : DB) : Prop :=
  db.carrinhos.Pairwise
    (fun a b => ¬(a.usuario_id = b.usuario_id ∧ a.produto_id = b.produto_id))

/-! ### Sample store used by witness theorems -/

/-- A sample product: price 3/2, stock 5. -/
def pSample : Produto := ⟨1, "Maca", 3/2, 5⟩

/-- A second sample product, stock 2. -/
def pSample2 : Produto := ⟨2, "Uva", 4, 2⟩

/-- A sample user. -/
def uSample : Usuario := ⟨1, "Ana", "ana@ex.com", none⟩

/-- A second sample user. -/
def uSample2 : Usuario := ⟨2, "Bia", "bia@ex.com", some "119"⟩

/-- Sample store: two products, two users, a cart line per user. -/
def dbSample : DB :=
  ⟨[pSample, pSample2], [uSample, uSample2], [⟨1, 1, 1, 3⟩, ⟨2, 2, 2, 1⟩]⟩

/-- Sample store with an empty cart-line table. -/
def dbEmptyCart : DB := ⟨[pSample, pSample2], [uSample, uSample2], []⟩

/-! ### Helper lemmas -/

/-- Inner fold of `maxCartId` once the accumulator is `some`. -/
lemma maxCartId_fold_some (l : List Carrinho) (m : Nat) :
    (l.foldl
      (fun acc c =>
        match acc with
        | none => some c.id
        | some m => some (max m c.id)) (some m)) =
      some (l.foldl (fun acc c => max acc c.id) m) := by
  induction l generalizing m with
  | nil => rfl
  | cons c l ih => simpa using ih (max m c.id)

/-- `MAX` over an empty table is `NULL`. -/
lemma maxCartId_eq_none (db : DB) (h : db.carrinhos = []) : maxCartId db = none := by
  simp [maxCartId, h]

/-- The max-fold either returns its seed or the id of some listed line. -/
lemma foldl_max_mem (l : List Carrinho) (a : Nat) :
    l.foldl (fun acc c => max acc c.id) a = a ∨
      ∃ c ∈ l, l.foldl (fun acc c => max acc c.id) a = c.id := by
  induction l generalizing a with
  | nil => exact Or.inl rfl
  | cons c l ih =>
    rcases ih (max a c.id) with h | ⟨d, hd, hfold⟩
    · simp only [List.foldl_cons, h]
      rcases Nat.le_total a c.id with hle | hle
      · exact Or.inr ⟨c, List.mem_cons_self c l, by omega⟩
      · exact Or.inl (by omega)
    · exact Or.inr ⟨d, List.mem_cons_of_mem c hd, by simpa using hfold⟩

/-- The max-fold is an upper bound for its seed and every listed id. -/
lemma foldl_max_le (l : List Carrinho) (a : Nat) :
    a ≤ l.foldl (fun acc c => max acc c.id) a ∧
      ∀ c ∈ l, c.id ≤ l.foldl (fun acc c => max acc c.id) a := by
  induction l generalizing a with
  | nil => exact ⟨Nat.le_refl a, by simp⟩
  | cons c l ih =>
    obtain ⟨h1, h2⟩ := ih (max a c.id)
    refine ⟨by simp only [List.foldl_cons]; omega, ?_⟩
    intro d hd
    rcases List.mem_cons.mp hd with rfl | hd
    · simp only [List.foldl_cons]; omega
    · simpa using h2 d hd

/-- `maxCartId` returns exactly the maximum existing cart-line id. -/
lemma maxCartId_eq_some (db : DB) (m : Nat)
    (hmem : ∃ c ∈ db.carrinhos, c.id = m)
    (hmax : ∀ c ∈ db.carrinhos, c.id ≤ m) : maxCartId db = some m := by
  obtain ⟨c0, hc0, hid⟩ := hmem
  match h : db.carrinhos with
  | [] => rw [h] at hc0; cases hc0
  | c :: l =>
    rw [h] at hc0 hmax
    unfold maxCartId
    rw [h]
    simp only [List.foldl_cons, maxCartId_fold_some]
    congr 1
    obtain ⟨h1, h2⟩ := foldl_max_le l c.id
    have hub : l.foldl (fun acc c => max acc c.id) c.id ≤ m := by
      rcases foldl_max_mem l c.id with he | ⟨d, hd, he⟩
      · rw [he]; exact hmax c (List.mem_cons_self c l)
      · rw [he]; exact hmax d (List.mem_cons_of_mem c hd)
    have hlb : m ≤ l.foldl (fun acc c => max acc c.id) c.id := by
      rcases List.mem_cons.mp hc0 with rfl | hc0
      · omega
      · have := h2 c0 hc0; omega
    omega

/-- When every referenced product exists, `computeTotal` is the sum of
`price × quantity` over the lines. -/
lemma computeTotal_eq_sum (db : DB) (itens : List Carrinho)
    (h : ∀ i ∈ itens, (lookupProduto db i.produto_id).isSome = true) :
    computeTotal db itens =
      some ((itens.map (fun i => precoDe db i * (i.quantidade : ℚ))).sum) := by
  induction itens with
  | nil => rfl
  | cons item rest ih =>
    have hhead := h item (List.mem_cons_self item rest)
    obtain ⟨p, hp⟩ := Option.isSome_iff_exists.mp hhead
    have hrest := ih (fun i hi => h i (List.mem_cons_of_mem item hi))
    simp [computeTotal, hp, hrest, precoDe]

/-- `enviar_whatsapp_admin` either answers `some` for every transport outcome
(when the pre-`try` formatting succeeds) or raises for every one. -/
lemma enviar_cases (db : DB) (usuario : Usuario) (itens : List Carrinho)
    (total : ℚ) (pedido_id : String) :
    (∀ tr, enviar_whatsapp_admin db usuario itens total pedido_id tr =
        some (if tr then false else true)) ∨
      (∀ tr, enviar_whatsapp_admin db usuario itens total pedido_id tr = none) := by
  by_cases h : itens.all (fun i => (lookupProduto db i.produto_id).isSome) = true
  · exact Or.inl fun tr => by simp [enviar_whatsapp_admin, h]
  · exact Or.inr fun tr => by simp [enviar_whatsapp_admin, h]

/-- A nonempty cart-line table has a `MAX` id. -/
lemma maxCartId_isSome (db : DB) (hne : db.carrinhos ≠ []) :
    ∃ m, maxCartId db = some m := by
  match h : db.carrinhos with
  | [] => exact absurd h hne
  | c :: l =>
    refine ⟨l.foldl (fun acc c => max acc c.id) c.id, ?_⟩
    unfold maxCartId
    rw [h]
    simp [maxCartId_fold_some]

/-- A line returned by the (user, product) lookup is a row of the table. -/
lemma findLine_mem (db : DB) (uid pid : Nat) (item : Carrinho)
    (h : findLine db uid pid = some item) : item ∈ db.carrinhos := by
  unfold findLine at h
  exact List.mem_of_find?_eq_some h

/-- Updating one line's quantity in place: the (user, product) lookup then
returns the same line with the new quantity. -/
lemma findLine_after_update (db : DB) (uid pid : Nat) (item : Carrinho) (nova : Int)
    (h : findLine db uid pid = some item) :
    findLine
      { db with
          carrinhos := db.carrinhos.map (fun c =>
            if c.id = item.id then { c with quantidade := nova } else c) } uid pid =
      some { item with quantidade := nova } := by
  unfold findLine at h ⊢
  have hpred : ((fun c : Carrinho => c.usuario_id == uid && c.produto_id == pid) ∘
      (fun c => if c.id = item.id then { c with quantidade := nova } else c)) =
      (fun c : Carrinho => c.usuario_id == uid && c.produto_id == pid) := by
    funext c
    by_cases hc : c.id = item.id <;> simp [hc]
  rw [List.find?_map, hpred, h]
  simp

/-- The uniqueness invariant survives an in-place quantity update. -/
lemma unique_preserved_map (l : List Carrinho) (iid : Nat) (nova : Int)
    (h : l.Pairwise
      (fun a b => ¬(a.usuario_id = b.usuario_id ∧ a.produto_id = b.produto_id))) :
    (l.map (fun c => if c.id = iid then { c with quantidade := nova } else c)).Pairwise
      (fun a b => ¬(a.usuario_id = b.usuario_id ∧ a.produto_id = b.produto_id)) := by
  refine List.pairwise_map.mpr (h.imp ?_)
  intro a b hab
  by_cases ha : a.id = iid <;> by_cases hb : b.id = iid <;> simpa [ha, hb] using hab

/-- The cart table after `adicionar_carrinho` is the old table, an in-place
quantity update of it, or the old table with one new (user, product) line
appended that the lookup had not found. -/
lemma add_carrinhos_shape (db : DB) (s : Option Nat) (pid : Nat) (q : Int)
    (cr : Bool) :
    (adicionar_carrinho db s pid q cr).2.carrinhos = db.carrinhos ∨
    (∃ iid nova, (adicionar_carrinho db s pid q cr).2.carrinhos =
        db.carrinhos.map (fun c =>
          if c.id = iid then { c with quantidade := nova } else c)) ∨
    (∃ uid x, s = some uid ∧ x.usuario_id = uid ∧ x.produto_id = pid ∧
        findLine db uid pid = none ∧
        (adicionar_carrinho db s pid q cr).2.carrinhos = db.carrinhos ++ [x]) := by
  simp only [adicionar_carrinho]
  repeat' split
  · exact Or.inl rfl
  · exact Or.inl rfl
  · exact Or.inl rfl
  · exact Or.inl rfl
  · exact Or.inl rfl
  · exact Or.inl rfl
  · exact Or.inr (Or.inl ⟨_, _, rfl⟩)
  · exact Or.inl rfl
  · exact Or.inr (Or.inr ⟨_, _, rfl, rfl, rfl, by assumption, rfl⟩)

/-- The cart table after `remover_item` is the old table or a filtering of it. -/
lemma remover_carrinhos_shape (db : DB) (iid : Nat) (cr : Bool) :
    (remover_item db iid cr).2.carrinhos = db.carrinhos ∨
    ∃ p, (remover_item db iid cr).2.carrinhos = db.carrinhos.filter p := by
  simp only [remover_item]
  repeat' split
  · exact Or.inl rfl
  · exact Or.inl rfl
  · exact Or.inr ⟨_, rfl⟩

/-- The cart table after `finalizar_compra` is the old table or a filtering
of it. -/
lemma finalizar_carrinhos_shape (db : DB) (s : Option Nat) (tr cr : Bool) :
    (finalizar_compra db s tr cr).db.carrinhos = db.carrinhos ∨
    ∃ p, (finalizar_compra db s tr cr).db.carrinhos = db.carrinhos.filter p := by
  simp only [finalizar_compra]
  repeat' split
  · exact Or.inl rfl
  · exact Or.inl rfl
  · exact Or.inl rfl
  · exact Or.inl rfl
  · exact Or.inl rfl
  · exact Or.inl rfl
  · exact Or.inr ⟨_, rfl⟩

/-! ### Claims -/

/-- C8: no cart/checkout operation modifies the product table (in particular
no stock value): `adicionar_carrinho` only validates the requested quantity
against `estoque` without decrementing it, `remover_item` only deletes cart
lines, and `finalizar_compra` completes without touching any product row. -/
theorem C8_stock_never_modified (db : DB) :
    (∀ s pid q cr, (adicionar_carrinho db s pid q cr).2.produtos = db.produtos) ∧
    (∀ iid cr, (remover_item db iid cr).2.produtos = db.produtos) ∧
    (∀ s tr cr, (finalizar_compra db s tr cr).db.produtos = db.produtos) := by
  refine ⟨fun s pid q cr => ?_, fun iid cr => ?_, fun s tr cr => ?_⟩
  · simp only [adicionar_carrinho]
    repeat' split
    all_goals rfl
  · simp only [remover_item]
    repeat' split
    all_goals rfl
  · simp only [finalizar_compra]
    repeat' split
    all_goals rfl

/-- C10: when the cart-line table is empty across all users, `MAX(Carrinho.id)`
is `NULL`, so `None + 1` raises an unhandled `TypeError` and `finalizar_compra`
aborts before attempting the notification and before clearing anything:
no confirmation is returned and the store is unchanged. -/
theorem C10_checkout_crashes_on_empty_table (db : DB) (uid : Nat)
    (usuario : Usuario)
    (hu : db.usuarios.find? (fun u => u.id == uid) = some usuario)
    (hempty : db.carrinhos = []) (tr cr : Bool) :
    finalizar_compra db (some uid) tr cr = ⟨.unhandledError, db, false⟩ := by
  unfold finalizar_compra
  simp [hu, hempty, computeTotal, maxCartId]

/-- Witness for C10: in the sample store with an empty cart table, checkout
crashes unhandled, attempts no transport call, and changes nothing. -/
theorem C10_witness :
    finalizar_compra dbEmptyCart (some 1) false false =
      ⟨.unhandledError, dbEmptyCart, false⟩ :=
  C10_checkout_crashes_on_empty_table dbEmptyCart 1 uSample (by rfl) rfl false false

/-- C7: `remover_item` on a nonexistent line id fails `NotFound` leaving the
store unchanged; on an existing id the line is deleted unconditionally (the
route takes no user and checks no ownership), it is absent afterward, every
other line survives, and a second call on the same id fails `NotFound` with
the state unchanged. -/
theorem C7_remove_line (db : DB) (iid : Nat) :
    (db.carrinhos.find? (fun c => c.id == iid) = none →
       remover_item db iid false = (.notFound, db)) ∧
    (∀ item, db.carrinhos.find? (fun c => c.id == iid) = some item →
       (remover_item db iid false).1 = .success ∧
       (∀ c ∈ (remover_item db iid false).2.carrinhos, c.id ≠ iid) ∧
       (∀ c ∈ db.carrinhos, c.id ≠ iid → c ∈ (remover_item db iid false).2.carrinhos) ∧
       (∀ c ∈ (remover_item db iid false).2.carrinhos, c ∈ db.carrinhos) ∧
       remover_item (remover_item db iid false).2 iid false =
         (.notFound, (remover_item db iid false).2)) := by
  constructor
  · intro h
    simp [remover_item, h]
  · intro item h
    simp only [remover_item, h, Bool.false_eq_true, if_false]
    have habs : ∀ c ∈ db.carrinhos.filter (fun c => c.id != iid), c.id ≠ iid := by
      intro c hc
      have := (List.mem_filter.mp hc).2
      simpa using this
    refine ⟨trivial, habs, ?_, ?_, ?_⟩
    · intro c hc hne
      exact List.mem_filter.mpr ⟨hc, by simpa using hne⟩
    · intro c hc
      exact List.mem_of_mem_filter hc
    · have hnone :
          (db.carrinhos.filter (fun c => c.id != iid)).find? (fun c => c.id == iid) = none :=
        List.find?_eq_none.mpr fun c hc => by simpa using habs c hc
      simp [remover_item, hnone]

/-- Witness for C7: removing line 1 from the sample store succeeds, and the
removed line is gone while the other user's line survives. -/
theorem C7_witness :
    (remover_item dbSample 1 false).1 = .success ∧
      (⟨2, 2, 2, 1⟩ : Carrinho) ∈ (remover_item dbSample 1 false).2.carrinhos ∧
      remover_item dbEmptyCart 3 false = (.notFound, dbEmptyCart) := by
  refine ⟨((C7_remove_line dbSample 1).2 ⟨1, 1, 1, 3⟩ (by rfl)).1, ?_, ?_⟩
  · exact ((C7_remove_line dbSample 1).2 ⟨1, 1, 1, 3⟩ (by rfl)).2.2.1
      ⟨2, 2, 2, 1⟩ (by decide) (by decide)
  · exact (C7_remove_line dbEmptyCart 3).1 (by rfl)

/-- C5: when checkout completes, the generated order identifier is exactly
`PED` followed by the 4-digit zero-padded value of (maximum existing
cart-line id across all users) + 1, read at checkout time. -/
theorem C5_order_id_from_max_line_id (db : DB) (uid m : Nat) (usuario : Usuario)
    (hu : db.usuarios.find? (fun u => u.id == uid) = some usuario)
    (hprod : ∀ c ∈ db.carrinhos, (lookupProduto db c.produto_id).isSome = true)
    (hmem : ∃ c ∈ db.carrinhos, c.id = m)
    (hmax : ∀ c ∈ db.carrinhos, c.id ≤ m) (tr : Bool) :
    ∃ ok, (finalizar_compra db (some uid) tr false).result =
      .success ("PED" ++ pad4 (m + 1)) ok := by
  have hitens : ∀ i ∈ db.carrinhos.filter (fun c => c.usuario_id == usuario.id),
      (lookupProduto db i.produto_id).isSome = true :=
    fun i hi => hprod i (List.mem_of_mem_filter hi)
  have hct := computeTotal_eq_sum db _ hitens
  have hall : (db.carrinhos.filter (fun c => c.usuario_id == usuario.id)).all
      (fun i => (lookupProduto db i.produto_id).isSome) = true :=
    List.all_eq_true.mpr hitens
  refine ⟨if tr then false else true, ?_⟩
  simp [finalizar_compra, hu, hct, maxCartId_eq_some db m hmem hmax,
    enviar_whatsapp_admin, hall]

/-- Witness for C5: in the sample store (max cart-line id 2) checkout by
user 1 is confirmed with order id `PED0003`. -/
theorem C5_witness :
    ∃ ok, (finalizar_compra dbSample (some 1) false false).result =
      .success "PED0003" ok :=
  C5_order_id_from_max_line_id dbSample 1 2 uSample (by rfl) (by decide)
    ⟨⟨2, 2, 2, 1⟩, by decide, rfl⟩ (by decide) false

/-- C4: the notification helper catches every transport failure, returning a
success/failure boolean instead of raising, and the transport outcome never
changes checkout's resulting store, whether the transport was reached, or the
generated confirmation (only the reported boolean can differ): a notification
failure is never propagated and never prevents or rolls back cart clearing. -/
theorem C4_notification_failure_swallowed (db : DB) :
    (∀ usuario itens total pid tr,
        (∀ i ∈ itens, (lookupProduto db i.produto_id).isSome = true) →
        enviar_whatsapp_admin db usuario itens total pid tr =
          some (if tr then false else true)) ∧
    (∀ s cr tr1 tr2,
        (finalizar_compra db s tr1 cr).db = (finalizar_compra db s tr2 cr).db ∧
        (finalizar_compra db s tr1 cr).transportAttempted =
          (finalizar_compra db s tr2 cr).transportAttempted ∧
        ∀ p ok1, (finalizar_compra db s tr1 cr).result = .success p ok1 →
          ∃ ok2, (finalizar_compra db s tr2 cr).result = .success p ok2) := by
  constructor
  · intro usuario itens total pid tr h
    have hall : itens.all (fun i => (lookupProduto db i.produto_id).isSome) = true :=
      List.all_eq_true.mpr h
    simp [enviar_whatsapp_admin, hall]
  · intro s cr tr1 tr2
    cases s with
    | none => exact ⟨rfl, rfl, fun p ok1 h => ⟨ok1, h⟩⟩
    | some sid =>
      cases hu : List.find? (fun u => u.id == sid) db.usuarios with
      | none =>
        simp [finalizar_compra, hu]
      | some usuario =>
        cases hct : computeTotal db
            (List.filter (fun c => c.usuario_id == usuario.id) db.carrinhos) with
        | none =>
          simp [finalizar_compra, hu, hct]
        | some total =>
          cases hm : maxCartId db with
          | none =>
            simp [finalizar_compra, hu, hct, hm]
          | some m =>
            rcases enviar_cases db usuario
                (List.filter (fun c => c.usuario_id == usuario.id) db.carrinhos)
                total ("PED" ++ pad4 (m + 1)) with he | he
            · cases cr with
              | true =>
                simp [finalizar_compra, hu, hct, hm, he tr1, he tr2]
              | false =>
                simp only [finalizar_compra, hu, hct, hm, he tr1, he tr2,
                  Bool.false_eq_true, if_false]
                refine ⟨trivial, trivial, ?_⟩
                intro p ok1 h
                injection h with h1 h2
                exact ⟨if tr2 then false else true, by rw [h1]⟩
            · simp [finalizar_compra, hu, hct, hm, he tr1, he tr2]

/-- Witness for C4: in the sample store the helper reports `false` on a
transport failure (rather than raising), and a failing transport yields the
same cleared store as a successful one. -/
theorem C4_witness :
    enviar_whatsapp_admin dbSample uSample dbSample.carrinhos 0 "PED0003" true =
        some false ∧
      (finalizar_compra dbSample (some 1) true false).db =
        (finalizar_compra dbSample (some 1) false false).db := by
  constructor
  · exact (C4_notification_failure_swallowed dbSample).1 uSample dbSample.carrinhos
      0 "PED0003" true (by decide)
  · exact ((C4_notification_failure_swallowed dbSample).2 (some 1) false true false).1

/-- C1: for a logged-in user, `adicionar_carrinho` fails `NotFound` when the
product does not exist and `InvalidQuantity` when `q ≤ 0`; otherwise, with no
line for (user, product) it succeeds iff `q ≤ stock` (failing
`InsufficientStock` with the store unchanged when `stock < q`), and with an
existing line of quantity `e` it succeeds iff `e + q ≤ stock` — the check is
against the combined total — setting that line's quantity to `e + q`, and
otherwise fails `InsufficientStock` leaving the store (hence the existing
line's quantity) unchanged.  Hypothesis: reachable stores only hold lines
with positive quantities. -/
theorem C1_add_to_cart_spec (db : DB) (uid produto_id : Nat) (q : Int)
    (hpos : ∀ c ∈ db.carrinhos, 0 < c.quantidade) :
    (lookupProduto db produto_id = none →
      adicionar_carrinho db (some uid) produto_id q false = (.notFound, db)) ∧
    ∀ p, lookupProduto db produto_id = some p →
      (q ≤ 0 →
        adicionar_carrinho db (some uid) produto_id q false = (.invalidQuantity, db)) ∧
      (0 < q →
        (findLine db uid produto_id = none →
          ((adicionar_carrinho db (some uid) produto_id q false).1 = .success ↔
            q ≤ p.estoque) ∧
          (p.estoque < q →
            adicionar_carrinho db (some uid) produto_id q false =
              (.insufficientStock, db))) ∧
        (∀ item, findLine db uid produto_id = some item →
          ((adicionar_carrinho db (some uid) produto_id q false).1 = .success ↔
            item.quantidade + q ≤ p.estoque) ∧
          (item.quantidade + q ≤ p.estoque →
            findLine (adicionar_carrinho db (some uid) produto_id q false).2
                uid produto_id =
              some { item with quantidade := item.quantidade + q }) ∧
          (p.estoque < item.quantidade + q →
            adicionar_carrinho db (some uid) produto_id q false =
              (.insufficientStock, db)))) := by
  constructor
  · intro hnone
    simp [adicionar_carrinho, hnone]
  · intro p hp
    constructor
    · intro hq
      simp [adicionar_carrinho, hp, if_pos hq]
    · intro hq
      have hq2 : ¬ q ≤ 0 := by omega
      constructor
      · intro hfl
        by_cases hs : p.estoque < q
        · constructor
          · simp [adicionar_carrinho, hp, if_neg hq2, if_pos hs]
            omega
          · intro _
            simp [adicionar_carrinho, hp, if_neg hq2, if_pos hs]
        · constructor
          · simp [adicionar_carrinho, hp, if_neg hq2, if_neg hs, hfl]
            omega
          · intro hcontra
            omega
      · intro item hfl
        have hitem : 0 < item.quantidade := hpos item (findLine_mem db uid produto_id item hfl)
        by_cases hs : p.estoque < q
        · have hs2 : ¬ item.quantidade + q ≤ p.estoque := by omega
          refine ⟨?_, fun hc => absurd hc hs2, fun _ => ?_⟩
          · simp [adicionar_carrinho, hp, if_neg hq2, if_pos hs]
            omega
          · simp [adicionar_carrinho, hp, if_neg hq2, if_pos hs]
        · by_cases hs2 : p.estoque < item.quantidade + q
          · refine ⟨?_, fun hc => by omega, fun _ => ?_⟩
            · simp [adicionar_carrinho, hp, if_neg hq2, if_neg hs, hfl, if_pos hs2]
              omega
            · simp [adicionar_carrinho, hp, if_neg hq2, if_neg hs, hfl, if_pos hs2]
          · refine ⟨?_, fun _ => ?_, fun hc => by omega⟩
            · simp [adicionar_carrinho, hp, if_neg hq2, if_neg hs, hfl, if_neg hs2]
              omega
            · have heff :
                  (adicionar_carrinho db (some uid) produto_id q false).2 =
                    { db with
                        carrinhos := db.carrinhos.map (fun c =>
                          if c.id = item.id then
                            { c with quantidade := item.quantidade + q }
                          else c) } := by
                simp [adicionar_carrinho, hp, if_neg hq2, if_neg hs, hfl, if_neg hs2]
              rw [heff]
              exact findLine_after_update db uid produto_id item
                (item.quantidade + q) hfl

/-- Witness for C1: in the sample store (user 1 already holds 3 of product 1,
stock 5), adding 2 more succeeds and the line's quantity becomes 5, adding 3
more fails `InsufficientStock` with the store unchanged, a nonpositive
quantity fails `InvalidQuantity`, and a missing product fails `NotFound`. -/
theorem C1_witness :
    (adicionar_carrinho dbSample (some 1) 1 2 false).1 = .success ∧
      findLine (adicionar_carrinho dbSample (some 1) 1 2 false).2 1 1 =
        some ⟨1, 1, 1, 5⟩ ∧
      adicionar_carrinho dbSample (some 1) 1 3 false =
        (.insufficientStock, dbSample) ∧
      adicionar_carrinho dbSample (some 1) 1 0 false =
        (.invalidQuantity, dbSample) ∧
      adicionar_carrinho dbSample (some 1) 9 1 false = (.notFound, dbSample) := by
  have h := (C1_add_to_cart_spec dbSample 1 1 2 (by decide)).2 pSample (by rfl)
  have h2 := ((h.2 (by decide)).2 ⟨1, 1, 1, 3⟩ (by rfl))
  have h3 := (C1_add_to_cart_spec dbSample 1 1 3 (by decide)).2 pSample (by rfl)
  refine ⟨h2.1.mpr (by decide), ?_, ?_, ?_, ?_⟩
  · have := h2.2.1 (by decide)
    simpa using this
  · exact (((h3.2 (by decide)).2 ⟨1, 1, 1, 3⟩ (by rfl))).2.2 (by decide)
  · exact ((C1_add_to_cart_spec dbSample 1 1 0 (by decide)).2 pSample (by rfl)).1
      (by decide)
  · exact (C1_add_to_cart_spec dbSample 1 9 1 (by decide)).1 (by rfl)

/-- C2: the at-most-one-line-per-(user, product) invariant is preserved by
`adicionar_carrinho`, `remover_item` and `finalizar_compra`; moreover, when a
line for the pair already exists, `adicionar_carrinho` never changes the
number of rows — it updates the existing line in place instead of inserting
a second one. -/
theorem C2_unique_line_invariant (db : DB) (h : UniqueUserProduct db) :
    (∀ s pid q cr, UniqueUserProduct (adicionar_carrinho db s pid q cr).2) ∧
    (∀ iid cr, UniqueUserProduct (remover_item db iid cr).2) ∧
    (∀ s tr cr, UniqueUserProduct (finalizar_compra db s tr cr).db) ∧
    (∀ uid pid q item cr, findLine db uid pid = some item →
      (adicionar_carrinho db (some uid) pid q cr).2.carrinhos.length =
        db.carrinhos.length) := by
  refine ⟨fun s pid q cr => ?_, fun iid cr => ?_, fun s tr cr => ?_,
    fun uid pid q item cr hf => ?_⟩
  · rcases add_carrinhos_shape db s pid q cr with hsh | ⟨iid, nova, hsh⟩ |
      ⟨uid2, x, _, hx1, hx2, hfl, hsh⟩
    · unfold UniqueUserProduct
      rw [hsh]
      exact h
    · unfold UniqueUserProduct
      rw [hsh]
      exact unique_preserved_map db.carrinhos iid nova h
    · unfold UniqueUserProduct
      rw [hsh]
      refine List.pairwise_append.mpr ⟨h, List.pairwise_singleton _ _, ?_⟩
      intro a ha b hb
      rw [List.mem_singleton] at hb
      subst hb
      unfold findLine at hfl
      have hnp := List.find?_eq_none.mp hfl a ha
      intro hcontra
      apply hnp
      simp [hcontra.1, hcontra.2, hx1, hx2]
  · rcases remover_carrinhos_shape db iid cr with hsh | ⟨p, hsh⟩
    · unfold UniqueUserProduct
      rw [hsh]
      exact h
    · unfold UniqueUserProduct
      rw [hsh]
      exact h.sublist (List.filter_sublist _)
  · rcases finalizar_carrinhos_shape db s tr cr with hsh | ⟨p, hsh⟩
    · unfold UniqueUserProduct
      rw [hsh]
      exact h
    · unfold UniqueUserProduct
      rw [hsh]
      exact h.sublist (List.filter_sublist _)
  · rcases hlp : lookupProduto db pid with _ | p
    · simp [adicionar_carrinho, hlp]
    · by_cases hq : q ≤ 0
      · simp [adicionar_carrinho, hlp, if_pos hq]
      · by_cases hs : p.estoque < q
        · simp [adicionar_carrinho, hlp, if_neg hq, if_pos hs]
        · by_cases hs2 : p.estoque < item.quantidade + q
          · simp [adicionar_carrinho, hlp, if_neg hq, if_neg hs, hf, if_pos hs2]
          · cases cr with
            | true => simp [adicionar_carrinho, hlp, if_neg hq, if_neg hs, hf, if_neg hs2]
            | false => simp [adicionar_carrinho, hlp, if_neg hq, if_neg hs, hf, if_neg hs2]

/-- Witness for C2: the sample store satisfies the invariant, it still holds
after adding 1 of product 1 for user 1 (an in-place update), and that add
keeps the number of cart rows at 2. -/
theorem C2_witness :
    UniqueUserProduct (adicionar_carrinho dbSample (some 1) 1 1 false).2 ∧
      (adicionar_carrinho dbSample (some 1) 1 1 false).2.carrinhos.length = 2 := by
  have hu : UniqueUserProduct dbSample := by
    unfold UniqueUserProduct
    decide
  constructor
  · exact (C2_unique_line_invariant dbSample hu).1 (some 1) 1 1 false
  · exact (C2_unique_line_invariant dbSample hu).2.2.2 1 1 1 ⟨1, 1, 1, 3⟩ false (by rfl)

/-- C3: checkout by an existing user, on a nonempty cart table whose lines
reference existing products, returns a confirmation and deletes every cart
line of that user and no line of any other user — every surviving line
belonged to the store before and no other user's line is lost — and the
resulting store is the same whether the notification transport fails or
succeeds. -/
theorem C3_checkout_clears_exactly_user_lines (db : DB) (uid : Nat)
    (usuario : Usuario)
    (hu : db.usuarios.find? (fun u => u.id == uid) = some usuario)
    (hprod : ∀ c ∈ db.carrinhos, (lookupProduto db c.produto_id).isSome = true)
    (hne : db.carrinhos ≠ []) (tr : Bool) :
    (∃ pid ok, (finalizar_compra db (some uid) tr false).result = .success pid ok) ∧
    (∀ c ∈ (finalizar_compra db (some uid) tr false).db.carrinhos,
      c.usuario_id ≠ uid) ∧
    (∀ c ∈ db.carrinhos, c.usuario_id ≠ uid →
      c ∈ (finalizar_compra db (some uid) tr false).db.carrinhos) ∧
    (∀ c ∈ (finalizar_compra db (some uid) tr false).db.carrinhos,
      c ∈ db.carrinhos) ∧
    (finalizar_compra db (some uid) true false).db =
      (finalizar_compra db (some uid) false false).db := by
  obtain ⟨m, hm⟩ := maxCartId_isSome db hne
  have hitens : ∀ i ∈ db.carrinhos.filter (fun c => c.usuario_id == usuario.id),
      (lookupProduto db i.produto_id).isSome = true :=
    fun i hi => hprod i (List.mem_of_mem_filter hi)
  have hct := computeTotal_eq_sum db _ hitens
  have hall : (db.carrinhos.filter (fun c => c.usuario_id == usuario.id)).all
      (fun i => (lookupProduto db i.produto_id).isSome) = true :=
    List.all_eq_true.mpr hitens
  have hout : ∀ tr2, finalizar_compra db (some uid) tr2 false =
      ⟨.success ("PED" ++ pad4 (m + 1)) (if tr2 then false else true),
        { db with carrinhos := db.carrinhos.filter (fun c => c.usuario_id != uid) },
        true⟩ := by
    intro tr2
    simp [finalizar_compra, hu, hct, hm, enviar_whatsapp_admin, hall]
  refine ⟨⟨"PED" ++ pad4 (m + 1), if tr then false else true, by rw [hout tr]⟩,
    ?_, ?_, ?_, by rw [hout true, hout false]⟩
  · intro c hc
    rw [hout tr] at hc
    have := (List.mem_filter.mp hc).2
    simpa using this
  · intro c hc hcu
    rw [hout tr]
    exact List.mem_filter.mpr ⟨hc, by simpa using hcu⟩
  · intro c hc
    rw [hout tr] at hc
    exact List.mem_of_mem_filter hc

/-- Witness for C3: checkout by user 1 in the sample store, with a failing
transport, is confirmed, and user 2's line survives while user 1's is gone. -/
theorem C3_witness :
    (∃ pid ok, (finalizar_compra dbSample (some 1) true false).result =
      .success pid ok) ∧
      (⟨2, 2, 2, 1⟩ : Carrinho) ∈
        (finalizar_compra dbSample (some 1) true false).db.carrinhos ∧
      (⟨1, 1, 1, 3⟩ : Carrinho) ∉
        (finalizar_compra dbSample (some 1) true false).db.carrinhos := by
  have h := C3_checkout_clears_exactly_user_lines dbSample 1 uSample (by rfl)
    (by decide) (by decide) true
  refine ⟨h.1, h.2.2.1 ⟨2, 2, 2, 1⟩ (by decide) (by decide), fun hc => ?_⟩
  exact h.2.1 ⟨1, 1, 1, 3⟩ hc rfl

/-- Counterexample to C9 as stated: an unexpected failure during
`remover_item`'s delete/commit escapes as a propagated unhandled exception —
the route has no handler — instead of surfacing as a generic operation
failure. -/
theorem C9_counterexample :
    remover_item dbSample 1 true = (.unhandledError, dbSample) := by rfl

/-- C9 amended: only `adicionar_carrinho` wraps its mutation in a
rollback-on-failure handler — a commit failure there leaves the store
unchanged and surfaces as the route's generic failure result; `remover_item`
and `finalizar_compra` have no handler, so a commit failure escapes as an
unhandled exception (the transaction never committed, so the persisted store
is still unchanged). -/
theorem C9_only_add_wraps_mutations (db : DB) :
    (∀ uid pid q p, lookupProduto db pid = some p → 0 < q →
      ¬ p.estoque < q → findLine db uid pid = none →
      adicionar_carrinho db (some uid) pid q true = (.dbError, db)) ∧
    (∀ uid pid q p item, lookupProduto db pid = some p → 0 < q →
      ¬ p.estoque < q → findLine db uid pid = some item →
      ¬ p.estoque < item.quantidade + q →
      adicionar_carrinho db (some uid) pid q true = (.dbError, db)) ∧
    (∀ iid item, db.carrinhos.find? (fun c => c.id == iid) = some item →
      remover_item db iid true = (.unhandledError, db)) ∧
    (∀ uid tr,
      (finalizar_compra db (some uid) tr true).db = db ∧
      ∀ p ok, (finalizar_compra db (some uid) tr true).result ≠ .success p ok) := by
  refine ⟨?_, ?_, ?_, ?_⟩
  · intro uid pid q p hp hq hs hfl
    have hq2 : ¬ q ≤ 0 := by omega
    simp [adicionar_carrinho, hp, if_neg hq2, if_neg hs, hfl]
  · intro uid pid q p item hp hq hs hfl hs2
    have hq2 : ¬ q ≤ 0 := by omega
    simp [adicionar_carrinho, hp, if_neg hq2, if_neg hs, hfl, if_neg hs2]
  · intro iid item hf
    simp [remover_item, hf]
  · intro uid tr
    simp only [finalizar_compra]
    repeat' split
    all_goals first
      | exact ⟨rfl, fun p ok h => by cases h⟩
      | (rename_i hfalse; exact absurd trivial hfalse)

/-- Witness for C9's amended claim: in the sample store a failing commit in
`adicionar_carrinho` yields the generic `dbError` with the store unchanged,
while in `remover_item` and `finalizar_compra` it escapes unhandled (store
also unchanged, but no generic failure result). -/
theorem C9_witness :
    adicionar_carrinho dbSample (some 1) 2 1 true = (.dbError, dbSample) ∧
      remover_item dbSample 2 true = (.unhandledError, dbSample) ∧
      (finalizar_compra dbSample (some 1) false true).db = dbSample := by
  refine ⟨?_, ?_, ?_⟩
  · exact (C9_only_add_wraps_mutations dbSample).1 1 2 1 pSample2 (by rfl)
      (by decide) (by decide) (by rfl)
  · exact (C9_only_add_wraps_mutations dbSample).2.2.1 2 ⟨2, 2, 2, 1⟩ (by rfl)
  · exact ((C9_only_add_wraps_mutations dbSample).2.2.2 1 false).1

end Frutt
